import Mathlib

/-!
Verification of the e-paper display module (`src/display/epaper.py`).

The module drives a Waveshare 2in13 e-paper panel: `is_raspberry_pi` probes
for the hardware, `init_and_clear_display` runs the init/clear protocol
steps, `display_image` pushes a decoded bitmap, and `display_text` lays out
text with an autofit font-size search and pushes the rendered canvas.

The embedding is effect-explicit: every external effect of the Python code
(PIL decoding and font metrics, driver calls, `time.sleep`, file saves) is
mediated by an environment record `Env`, and each operation returns, next to
its boolean result, the list of driver-directed events it emitted and the
updated file-system map, so that ordering and absence of hardware
interaction are provable facts.
-/

/-- Python exception classes that can cross the module's internal calls:
PIL decode failures (`Image.open`), driver I/O failures, font-load failures
(`ImageFont.truetype`), file-save failures (`image.save`) and PIL's
`ValueError` on a negative canvas dimension. -/
inductive PyErr
  | decodeErr
  | driverErr
  | fontErr
  | saveErr
  | valueErr
deriving DecidableEq, Repr

/-- A PIL `'1'`-mode canvas: width × height in pixels, `px x y = true` means
the pixel at column `x`, row `y` is black (fill 0), `false` means white
(fill 255).  Dimensions are `Int` because the Python callers pass arbitrary
integers. -/
structure Canvas where
  width : Int
  height : Int
  px : Int → Int → Bool

/-- Events directed at the hardware driver or the file system, in emission
order: `epd.init(lut_full_update)`, `epd.Clear(fill)`, `time.sleep(n)`,
`epd.display(buffer)`, `epd.sleep()`, and `image.save(path)`. -/
inductive Ev
  | drvInit
  | drvClear (fill : Nat)
  | wait (n : Nat)
  | drvPush
  | drvSleep
  | save (path : String)
deriving DecidableEq, Repr

/-- The simulated file system: maps a path to the canvas last saved there. -/
def FSMap : Type := String → Option Canvas

/-- Error kinds the `open('/proc/device-tree/model')` read can raise; the
source catches exactly `(FileNotFoundError, IOError, OSError)`. -/
inductive ReadErr
  | fileNotFound
  | ioError
  | osError
deriving DecidableEq, Repr

/-- Environment of the hardware probe: outcome of reading
`/proc/device-tree/model`, `platform.machine()`, and whether `/dev/gpiomem`
exists. -/
structure ProbeEnv where
  readModel : Except ReadErr String
  machine : String
  gpiomem : Bool

/-- Whether the first character list leads the second. -/
def leadsWith : List Char → List Char → Bool
  | [], _ => true
  | _ :: _, [] => false
  | a :: as, b :: bs => a == b && leadsWith as bs

/-- Whether the first character list occurs contiguously in the second. -/
def occursIn (sub : List Char) : List Char → Bool
  | [] => leadsWith sub []
  | c :: rest => leadsWith sub (c :: rest) || occursIn sub rest

/-- Python's `sub in s` substring test. -/
def pyIn (sub s : String) : Bool :=
  occursIn sub.toList s.toList

/-- `is_raspberry_pi` (epaper.py lines 13-30): read the device-tree model
and test for the substring `'raspberry pi'` in its lowercasing; on a caught
read error fall back to `platform.machine().startswith('arm') and
os.path.exists('/dev/gpiomem')`. -/
def is_raspberry_pi (env : ProbeEnv) : Bool :=
  match env.readModel with
  | .ok model => pyIn "raspberry pi" model.toLower
  | .error _ => env.machine.startsWith "arm" && env.gpiomem

/-- Environment of the display operations.  `piAvailable` is the module
global `PI_AVAILABLE`; `openImage` is `Image.open` (decode success or
exception); `measure text fs` is `draw.textbbox((0,0), text, font)[2:]` for
the font at size `fs`; `glyphs text fs dx dy` tells whether the glyph
rasteriser blackens the pixel at offset `(dx, dy)` from the draw anchor;
`fontLoad fs` is whether `ImageFont.truetype(font_path, fs)` succeeds; the
`…Ok` flags are the success of the four driver calls and of `image.save`;
`currentDir` is `os.path.dirname(os.path.abspath(__file__))`. -/
structure Env where
  piAvailable : Bool
  openImage : String → Except PyErr Canvas
  measure : String → Nat → Int × Int
  glyphs : String → Nat → Int → Int → Bool
  fontLoad : Nat → Bool
  initOk : Bool
  clearOk : Bool
  pushOk : Bool
  sleepOk : Bool
  saveOk : Bool
  currentDir : String

/-- `os.path.join` for the two relative paths the module builds. -/
def joinPath (a b : String) : String := a ++ "/" ++ b

/-- The font file path: `os.path.join(current_dir, 'Ranchers-Regular.ttf')`. -/
def fontFile (env : Env) : String := joinPath env.currentDir "Ranchers-Regular.ttf"

/-- The debug bitmap path:
`os.path.join(current_dir, '../bmps/text_preview.bmp')` (line 161). -/
def debugPath (env : Env) : String := joinPath env.currentDir "../bmps/text_preview.bmp"

/-- `Image.new('1', (w, h), 255)`: an all-white canvas. -/
def blankCanvas (w h : Int) : Canvas :=
  ⟨w, h, fun _ _ => false⟩

/-- `draw.text((x, y), text, font=font, fill=0)`: blacken the pixels the
glyph rasteriser covers, translated to anchor `(x, y)`; pixels already black
stay black and off-canvas coverage is clipped away by the canvas bounds. -/
def drawText (env : Env) (c : Canvas) (text : String) (fs : Nat) (x y : Int) : Canvas :=
  ⟨c.width, c.height, fun i j => c.px i j || env.glyphs text fs (i - x) (j - y)⟩

/-- `image.rotate(270, expand=True)` (line 146): a quarter-turn with an
expanded bounding box, so width and height swap. -/
def rotate270expand (c : Canvas) : Canvas :=
  ⟨c.height, c.width, fun i j => c.px j (c.height - 1 - i)⟩

/-- `init_and_clear_display` (lines 45-59): on the Pi, `epd.init`, then
`epd.Clear(0xFF)`, then `time.sleep(2)`; otherwise a log line only.
Returns the events emitted up to success or first driver failure. -/
def init_and_clear_display (env : Env) : List Ev × Except PyErr Unit :=
  if env.piAvailable then
    if env.initOk then
      if env.clearOk then ([.drvInit, .drvClear 255, .wait 2], .ok ())
      else ([.drvInit, .drvClear 255], .error .driverErr)
    else ([.drvInit], .error .driverErr)
  else ([], .ok ())

/-- Body of `display_image` (lines 71-88), before the `except` clause.  On
the Pi: `init_and_clear_display()`, then `Image.open(image_path)`, then
`epd.display(epd.getbuffer(image))`, `time.sleep(2)`, `epd.sleep()`.  Off
the Pi: only `Image.open(image_path)` (mock path, lines 82-87). -/
def display_image_run (env : Env) (path : String) : List Ev × Except PyErr Unit :=
  if env.piAvailable then
    match init_and_clear_display env with
    | (tr, .error e) => (tr, .error e)
    | (tr, .ok ()) =>
      match env.openImage path with
      | .error e => (tr, .error e)
      | .ok _ =>
        if env.pushOk then
          if env.sleepOk then (tr ++ [.drvPush, .wait 2, .drvSleep], .ok ())
          else (tr ++ [.drvPush, .wait 2, .drvSleep], .error .driverErr)
        else (tr ++ [.drvPush], .error .driverErr)
  else
    match env.openImage path with
    | .error e => ([], .error e)
    | .ok _ => ([], .ok ())

/-- `display_image` (lines 61-92): the `try`/`except Exception` boundary
maps a completed body to `True` and any internal exception to `False`. -/
def display_image (env : Env) (path : String) : Bool × List Ev :=
  match display_image_run env path with
  | (tr, .ok ()) => (true, tr)
  | (tr, .error _) => (false, tr)

/-- Does the text at font size `fs` fit the working canvas margins?  The
negation of the `while` condition on line 131:
`text_width ≤ layout_width - 10` and `text_height ≤ layout_height - 10`. -/
def fitsAt (env : Env) (text : String) (lw lh : Int) (fs : Nat) : Prop :=
  (env.measure text fs).1 ≤ lw - 10 ∧ (env.measure text fs).2 ≤ lh - 10

instance (env : Env) (text : String) (lw lh : Int) (fs : Nat) :
    Decidable (fitsAt env text lw lh fs) :=
  inferInstanceAs (Decidable (_ ∧ _))

/-- The font-size search loop (lines 131-134), fuelled: while the measured
box overflows `(layout_width - 10, layout_height - 10)` and `font_size > 8`,
decrement the size by 2, reload the font (`ImageFont.truetype`, which can
raise) and remeasure.  `fuel` bounds the iteration count; at the call site
it is large enough that the fallback `.ok fs` is reached only when
`fs ≤ 8`, where the Python loop also stops. -/
def fitFrom (env : Env) (text : String) (lw lh : Int) : Nat → Nat → Except PyErr Nat
  | 0, fs => .ok fs
  | fuel + 1, fs =>
    if (env.measure text fs).1 > lw - 10 ∨ (env.measure text fs).2 > lh - 10 then
      if 8 < fs then
        if env.fontLoad (fs - 2) then fitFrom env text lw lh fuel (fs - 2)
        else .error .fontErr
      else .ok fs
    else .ok fs

/-- The autofit search as `display_text` runs it: seed size 40 (line 124),
16 possible decrements down to the floor of 8. -/
def fitLoop (env : Env) (text : String) (lw lh : Int) : Except PyErr Nat :=
  fitFrom env text lw lh 16 40

/-- Layout on the working canvas (lines 119-141, before rotation): allocate
the blank `(lw, lh)` canvas, load the seed font, run the autofit search,
centre with floor division `(lw - tw) // 2`, `(lh - th) // 2`, and draw. -/
def layoutWorking (env : Env) (text : String) (lw lh : Int) : Except PyErr Canvas :=
  if lw < 0 ∨ lh < 0 then .error .valueErr
  else if env.fontLoad 40 then
    match fitLoop env text lw lh with
    | .error e => .error e
    | .ok fs =>
      let tw := (env.measure text fs).1
      let th := (env.measure text fs).2
      let x := Int.fdiv (lw - tw) 2
      let y := Int.fdiv (lh - th) 2
      .ok (drawText env (blankCanvas lw lh) text fs x y)
  else .error .fontErr

/-- Full layout of `display_text` (lines 112-146): if `rotate`, swap the
working dimensions to `(max_height, max_width)` and rotate the drawn canvas
270° with expansion at the end. -/
def layout (env : Env) (text : String) (mw mh : Int) (rotate : Bool) :
    Except PyErr Canvas :=
  if rotate then
    match layoutWorking env text mh mw with
    | .error e => .error e
    | .ok img => .ok (rotate270expand img)
  else layoutWorking env text mw mh

/-- Body of `display_text` (lines 107-165), before the `except` clause:
layout, then on the Pi the same init/clear/push/sleep session as
`display_image`; off the Pi, save the canvas to the debug path
`../bmps/text_preview.bmp` relative to the module directory. -/
def display_text_run (env : Env) (text : String) (mw mh : Int) (rotate : Bool)
    (fs0 : FSMap) : List Ev × FSMap × Except PyErr Unit :=
  match layout env text mw mh rotate with
  | .error e => ([], fs0, .error e)
  | .ok img =>
    if env.piAvailable then
      match init_and_clear_display env with
      | (tr, .error e) => (tr, fs0, .error e)
      | (tr, .ok ()) =>
        if env.pushOk then
          if env.sleepOk then (tr ++ [.drvPush, .wait 2, .drvSleep], fs0, .ok ())
          else (tr ++ [.drvPush, .wait 2, .drvSleep], fs0, .error .driverErr)
        else (tr ++ [.drvPush], fs0, .error .driverErr)
    else
      if env.saveOk then
        ([.save (debugPath env)],
         fun p => if p = debugPath env then some img else fs0 p, .ok ())
      else ([], fs0, .error .saveErr)

/-- `display_text` (lines 94-168): the `try`/`except Exception` boundary
maps a completed body to `True` and any internal exception to `False`. -/
def display_text (env : Env) (text : String) (mw mh : Int) (rotate : Bool)
    (fs0 : FSMap) : Bool × List Ev × FSMap :=
  match display_text_run env text mw mh rotate fs0 with
  | (tr, fs, .ok ()) => (true, tr, fs)
  | (tr, fs, .error _) => (false, tr, fs)

/-! ### Properties of the autofit search -/

/-- Invariant of the fuelled search loop: starting from an even size
`fs ≥ 8` with enough fuel to reach the floor, the loop succeeds (when every
font load succeeds) and returns the largest even size `≤ fs` that fits, or
the floor 8 when nothing fits. -/
theorem fitFrom_spec (env : Env) (text : String) (lw lh : Int)
    (hload : ∀ s, env.fontLoad s = true) :
    ∀ fuel fs, 8 ≤ fs → fs % 2 = 0 → fs ≤ 8 + 2 * fuel →
    ∃ r, fitFrom env text lw lh fuel fs = .ok r ∧ 8 ≤ r ∧ r ≤ fs ∧ r % 2 = 0 ∧
      (fitsAt env text lw lh r ∨ r = 8) ∧
      (∀ s, r < s → s ≤ fs → s % 2 = 0 → ¬ fitsAt env text lw lh s) := by
  intro fuel
  induction fuel with
  | zero =>
    intro fs h8 _ hle
    have hfs : fs = 8 := by omega
    subst hfs
    refine ⟨8, rfl, le_refl _, le_refl _, rfl, Or.inr rfl, ?_⟩
    intro s hs hsle _ _
    omega
  | succ n ih =>
    intro fs h8 hev hle
    by_cases hfit : (env.measure text fs).1 > lw - 10 ∨ (env.measure text fs).2 > lh - 10
    · by_cases h8' : 8 < fs
      · have hl := hload (fs - 2)
        obtain ⟨r, hr, hr8, hrle, hrev, hrfit, hrmax⟩ :=
          ih (fs - 2) (by omega) (by omega) (by omega)
        refine ⟨r, ?_, hr8, by omega, hrev, hrfit, ?_⟩
        · simp only [fitFrom, if_pos hfit, if_pos h8', hl, if_true]
          exact hr
        · intro s hs hsle hsev
          rcases Nat.lt_or_ge (fs - 2) s with hgt | hge
          · have hsfs : s = fs := by omega
            subst hsfs
            intro hc
            simp only [fitsAt] at hc
            rcases hfit with h | h
            · omega
            · omega
          · exact hrmax s hs hge hsev
      · have hfs : fs = 8 := by omega
        subst hfs
        refine ⟨8, ?_, le_refl _, le_refl _, rfl, Or.inr rfl, ?_⟩
        · simp only [fitFrom, if_pos hfit, if_neg h8']
        · intro s hs hsle _ _
          omega
    · refine ⟨fs, ?_, h8, le_refl _, hev, Or.inl ?_, ?_⟩
      · simp only [fitFrom, if_neg hfit]
      · simp only [fitsAt]
        push_neg at hfit
        exact ⟨hfit.1, hfit.2⟩
      · intro s hs hsle _ _
        omega

/-! ### Concrete environments for evaluation -/

/-- The empty simulated file system. -/
def fsEmpty : FSMap := fun _ => none

/-- A concrete simulated-backend environment (`PI_AVAILABLE = False`): every
decode of `"ok.bmp"` succeeds and every other decode raises, text measures
`(5·fs, fs)` per character unit at font size `fs`, the rasteriser covers no
pixel for any text, and every font load and save succeeds. -/
def envSim : Env where
  piAvailable := false
  openImage := fun p => if p = "ok.bmp" then .ok (blankCanvas 10 10) else .error .decodeErr
  measure := fun text fs => ((fs : Int) * text.length, (fs : Int))
  glyphs := fun _ _ _ _ => false
  fontLoad := fun _ => true
  initOk := true
  clearOk := true
  pushOk := true
  sleepOk := true
  saveOk := true
  currentDir := "/install/display"

/-- The same environment on the Real backend with every driver call
succeeding and every decode succeeding. -/
def envReal : Env :=
  { envSim with piAvailable := true, openImage := fun _ => .ok (blankCanvas 10 10) }

/-- Real backend where every decode raises (the bitmap is missing). -/
def envRealNoImg : Env :=
  { envReal with openImage := fun _ => .error .decodeErr }

/-- Real backend where the `epd.Clear` driver call raises. -/
def envRealClearFail : Env :=
  { envReal with clearOk := false }

/-! ### Helper lemmas about the layout -/

/-- A successful working layout has exactly the working dimensions. -/
theorem layoutWorking_dims (env : Env) (text : String) (lw lh : Int) (c : Canvas)
    (h : layoutWorking env text lw lh = .ok c) : c.width = lw ∧ c.height = lh := by
  unfold layoutWorking at h
  by_cases hd : lw < 0 ∨ lh < 0
  · simp [hd] at h
  · rw [if_neg hd] at h
    by_cases hf : env.fontLoad 40
    · rw [if_pos hf] at h
      rcases hfit : fitLoop env text lw lh with e | fs
      · rw [hfit] at h
        simp at h
      · rw [hfit] at h
        simp only [Except.ok.injEq] at h
        subst h
        exact ⟨rfl, rfl⟩
    · rw [if_neg hf] at h
      simp at h

/-- If the rasteriser covers no pixel for `text`, a successful working
layout of `text` is all white. -/
theorem layoutWorking_blank (env : Env) (text : String) (lw lh : Int) (c : Canvas)
    (hg : ∀ fs dx dy, env.glyphs text fs dx dy = false)
    (h : layoutWorking env text lw lh = .ok c) : ∀ i j, c.px i j = false := by
  unfold layoutWorking at h
  by_cases hd : lw < 0 ∨ lh < 0
  · simp [hd] at h
  · rw [if_neg hd] at h
    by_cases hf : env.fontLoad 40
    · rw [if_pos hf] at h
      rcases hfit : fitLoop env text lw lh with e | fs
      · rw [hfit] at h
        simp at h
      · rw [hfit] at h
        simp only [Except.ok.injEq] at h
        subst h
        intro i j
        simp [drawText, blankCanvas, hg]
    · rw [if_neg hf] at h
      simp at h

/-! ### The claims -/

/-- C1: for every image path and every text input (any `max_width`,
`max_height`, `rotate`), `display_image` and `display_text` return a
boolean — `true` exactly when the body completed, `false` on any internal
exception — and the `try`/`except` boundary never lets an exception
propagate to the caller: the returned value is always a plain boolean, the
exception is consumed. -/
theorem C1_boolean_boundary (env : Env) (path text : String) (mw mh : Int)
    (rotate : Bool) (fs0 : FSMap) :
    ((display_image env path).1 = true ↔ (display_image_run env path).2 = .ok ()) ∧
    ((display_text env text mw mh rotate fs0).1 = true ↔
      (display_text_run env text mw mh rotate fs0).2.2 = .ok ()) := by
  constructor
  · rcases h : display_image_run env path with ⟨tr, r⟩
    rcases r with e | u
    · simp [display_image, h]
    · cases u
      simp [display_image, h]
  · rcases h : display_text_run env text mw mh rotate fs0 with ⟨tr, fsm, r⟩
    rcases r with e | u
    · simp [display_text, h]
    · cases u
      simp [display_text, h]

/-- C2: the font size the autofit search of `display_text` selects for text
`T` on working dimensions `(w, h)` is the largest even value `≤ 40` and
`≥ 8` whose measured bounding box fits within `(w - 10, h - 10)`, and it is
exactly 8 when no size in that range fits (assuming the font loads at every
size, as it does whenever the font file is present). -/
theorem C2_autofit_largest (env : Env) (text : String) (w h : Int)
    (hload : ∀ s, env.fontLoad s = true) :
    ∃ r, fitLoop env text w h = .ok r ∧
      ((fitsAt env text w h r ∧ r % 2 = 0 ∧ 8 ≤ r ∧ r ≤ 40 ∧
          ∀ s, s % 2 = 0 → 8 ≤ s → s ≤ 40 → fitsAt env text w h s → s ≤ r) ∨
        (r = 8 ∧ ∀ s, s % 2 = 0 → 8 ≤ s → s ≤ 40 → ¬ fitsAt env text w h s)) := by
  obtain ⟨r, hr, hr8, hrle, hrev, hrfit, hrmax⟩ :=
    fitFrom_spec env text w h hload 16 40 (by omega) (by omega) (by omega)
  refine ⟨r, hr, ?_⟩
  rcases hrfit with hfit | h8
  · left
    refine ⟨hfit, hrev, hr8, hrle, ?_⟩
    intro s hsev hs8 hs40 hsfit
    by_contra hgt
    push_neg at hgt
    exact hrmax s hgt hs40 hsev hsfit
  · subst h8
    by_cases hf8 : fitsAt env text w h 8
    · left
      refine ⟨hf8, rfl, le_refl _, by omega, ?_⟩
      intro s hsev hs8 hs40 hsfit
      by_contra hgt
      push_neg at hgt
      exact hrmax s hgt hs40 hsev hsfit
    · right
      refine ⟨rfl, ?_⟩
      intro s hsev hs8 hs40
      rcases Nat.eq_or_lt_of_le hs8 with heq | hlt
      · rw [← heq]
        exact hf8
      · exact hrmax s hlt hs40 hsev

/-- Witness for C2 at a concrete environment and input. -/
theorem C2_autofit_largest_witness :
    ∃ r, fitLoop envSim "Hello" 250 122 = .ok r ∧
      ((fitsAt envSim "Hello" 250 122 r ∧ r % 2 = 0 ∧ 8 ≤ r ∧ r ≤ 40 ∧
          ∀ s, s % 2 = 0 → 8 ≤ s → s ≤ 40 → fitsAt envSim "Hello" 250 122 s → s ≤ r) ∨
        (r = 8 ∧ ∀ s, s % 2 = 0 → 8 ≤ s → s ≤ 40 → ¬ fitsAt envSim "Hello" 250 122 s)) :=
  C2_autofit_largest envSim "Hello" 250 122 (fun _ => rfl)

/-- C3: a successful `display_text` layout with `rotate = false` produces a
canvas of exactly `(w, h)`; with `rotate = true` the text is laid out on an
internal `(h, w)` working canvas and the final canvas — the 270°-rotation
of that working canvas — has dimensions `(w, h)`. -/
theorem C3_layout_dims (env : Env) (text : String) (w h : Int) (rotate : Bool)
    (img : Canvas) (hlay : layout env text w h rotate = .ok img) :
    img.width = w ∧ img.height = h ∧
    (rotate = true →
      ∃ inner, layoutWorking env text h w = .ok inner ∧
        inner.width = h ∧ inner.height = w ∧ img = rotate270expand inner) := by
  cases rotate with
  | false =>
    unfold layout at hlay
    obtain ⟨hw, hh⟩ := layoutWorking_dims env text w h img hlay
    exact ⟨hw, hh, fun hc => by simp at hc⟩
  | true =>
    unfold layout at hlay
    rcases hw : layoutWorking env text h w with e | inner
    · rw [hw] at hlay
      simp at hlay
    · rw [hw] at hlay
      simp at hlay
      subst hlay
      obtain ⟨hiw, hih⟩ := layoutWorking_dims env text h w inner hw
      refine ⟨?_, ?_, fun _ => ⟨inner, rfl, hiw, hih, rfl⟩⟩
      · simp [rotate270expand, hih]
      · simp [rotate270expand, hiw]

/-- The canvas `layout` produces for `"Hello"` on a 122 × 250 panel with
rotation: text measured `(200, 40)` at the seed size 40, which fits, so it
is drawn centred at `(25, 41)` on the 250 × 122 working canvas and then
rotated. -/
def helloCanvas : Canvas :=
  rotate270expand (drawText envSim (blankCanvas 250 122) "Hello" 40 25 41)

/-- Witness for C3 at the spec's concrete scenario
`displayText("Hello", 122, 250, rotate=true)`. -/
theorem C3_layout_dims_witness :
    helloCanvas.width = 122 ∧ helloCanvas.height = 250 ∧
    ∃ inner, layoutWorking envSim "Hello" 250 122 = .ok inner ∧
      inner.width = 250 ∧ inner.height = 122 ∧ helloCanvas = rotate270expand inner :=
  ⟨(C3_layout_dims envSim "Hello" 122 250 true helloCanvas rfl).1,
   (C3_layout_dims envSim "Hello" 122 250 true helloCanvas rfl).2.1,
   (C3_layout_dims envSim "Hello" 122 250 true helloCanvas rfl).2.2 rfl⟩

/-- C4 counterexample: on the Real backend, `display_image` on a path that
does not decode returns `False` but has already issued the `init` and
`clear` driver calls — the code calls `init_and_clear_display()` (line 73)
before `Image.open` (line 76) — so "issues no driver calls" is false. -/
theorem C4_counterexample :
    (display_image envRealNoImg "missing.bmp").1 = false ∧
    Ev.drvInit ∈ (display_image envRealNoImg "missing.bmp").2 ∧
    Ev.drvClear 255 ∈ (display_image envRealNoImg "missing.bmp").2 := by
  decide

/-- C4 as amended: for every path whose decode raises, `display_image`
returns `False` and the `push` and `sleep` steps are never attempted; on
the Simulated backend no driver call at all is issued, while on the Real
backend the `init` and `clear` steps (and their settle wait) have already
run before the decode failure. -/
theorem C4_amended_decode_failure (env : Env) (path : String) (e : PyErr)
    (h : env.openImage path = .error e) :
    (display_image env path).1 = false ∧
    Ev.drvPush ∉ (display_image env path).2 ∧
    Ev.drvSleep ∉ (display_image env path).2 ∧
    (env.piAvailable = false → (display_image env path).2 = []) := by
  unfold display_image display_image_run init_and_clear_display
  cases hpi : env.piAvailable with
  | false => simp [h]
  | true =>
    cases hi : env.initOk with
    | false => simp
    | true =>
      cases hc : env.clearOk with
      | false => simp
      | true => simp [h]

/-- Witness for C4's amended theorem at a concrete environment. -/
theorem C4_amended_decode_failure_witness :
    (display_image envRealNoImg "missing2.bmp").1 = false ∧
    Ev.drvPush ∉ (display_image envRealNoImg "missing2.bmp").2 ∧
    Ev.drvSleep ∉ (display_image envRealNoImg "missing2.bmp").2 ∧
    (envRealNoImg.piAvailable = false →
      (display_image envRealNoImg "missing2.bmp").2 = []) :=
  C4_amended_decode_failure envRealNoImg "missing2.bmp" .decodeErr rfl

/-- C5: on the Real backend, every successful `display_image` or
`display_text` emits exactly the protocol sequence
`init, clear, wait 2, push, wait 2, sleep` — no step omitted or reordered,
and each settle delay is the fixed 2 time-units. -/
theorem C5_protocol_order (env : Env) (path text : String) (mw mh : Int)
    (rotate : Bool) (fs0 : FSMap) (hpi : env.piAvailable = true) :
    ((display_image env path).1 = true →
      (display_image env path).2 =
        [Ev.drvInit, Ev.drvClear 255, Ev.wait 2, Ev.drvPush, Ev.wait 2, Ev.drvSleep]) ∧
    ((display_text env text mw mh rotate fs0).1 = true →
      (display_text env text mw mh rotate fs0).2.1 =
        [Ev.drvInit, Ev.drvClear 255, Ev.wait 2, Ev.drvPush, Ev.wait 2, Ev.drvSleep]) := by
  constructor
  · unfold display_image display_image_run init_and_clear_display
    cases hi : env.initOk with
    | false => simp [hpi]
    | true =>
      cases hc : env.clearOk with
      | false => simp [hpi]
      | true =>
        rcases ho : env.openImage path with e | c
        · simp [hpi, ho]
        · cases hp : env.pushOk with
          | false => simp [hpi, ho]
          | true =>
            cases hs : env.sleepOk with
            | false => simp [hpi, ho]
            | true => simp [hpi, ho]
  · unfold display_text display_text_run init_and_clear_display
    rcases hl : layout env text mw mh rotate with e | img
    · simp
    · cases hi : env.initOk with
      | false => simp [hpi]
      | true =>
        cases hc : env.clearOk with
        | false => simp [hpi]
        | true =>
          cases hp : env.pushOk with
          | false => simp [hpi]
          | true =>
            cases hs : env.sleepOk with
            | false => simp [hpi]
            | true => simp [hpi]

/-- Witness for C5 at a fully healthy Real-backend environment. -/
theorem C5_protocol_order_witness :
    (display_image envReal "ok.bmp").2 =
      [Ev.drvInit, Ev.drvClear 255, Ev.wait 2, Ev.drvPush, Ev.wait 2, Ev.drvSleep] ∧
    (display_text envReal "Hi" 122 250 true fsEmpty).2.1 =
      [Ev.drvInit, Ev.drvClear 255, Ev.wait 2, Ev.drvPush, Ev.wait 2, Ev.drvSleep] :=
  ⟨(C5_protocol_order envReal "ok.bmp" "Hi" 122 250 true fsEmpty rfl).1 rfl,
   (C5_protocol_order envReal "ok.bmp" "Hi" 122 250 true fsEmpty rfl).2 rfl⟩

/-- C6 counterexample: on the Real backend with the `clear` step failing,
`display_image` returns `False` and the emitted trace ends at the failed
`clear` — there is no settle wait and no `sleep`/power-down afterwards, so
the driver state is not released or settled; the exception is merely caught
(line 90) and no cleanup runs. -/
theorem C6_counterexample :
    (display_image envRealClearFail "ok.bmp").1 = false ∧
    (display_image envRealClearFail "ok.bmp").2 = [Ev.drvInit, Ev.drvClear 255] ∧
    Ev.drvSleep ∉ (display_image envRealClearFail "ok.bmp").2 ∧
    Ev.wait 2 ∉ (display_image envRealClearFail "ok.bmp").2 := by
  decide

/-- C6 as amended: on the Real backend, when the `init` or `clear` step
fails, both operations return `False` and the remaining sequence is
aborted — `push` and `sleep` are never attempted — but no release/settle of
the driver state is performed either: no settle wait and no power-down
follows the failure. -/
theorem C6_amended_abort (env : Env) (path text : String) (mw mh : Int)
    (rotate : Bool) (fs0 : FSMap) (hpi : env.piAvailable = true)
    (hfail : env.initOk = false ∨ env.clearOk = false) :
    (display_image env path).1 = false ∧
    Ev.drvPush ∉ (display_image env path).2 ∧
    Ev.drvSleep ∉ (display_image env path).2 ∧
    Ev.wait 2 ∉ (display_image env path).2 ∧
    (display_text env text mw mh rotate fs0).1 = false ∧
    Ev.drvPush ∉ (display_text env text mw mh rotate fs0).2.1 ∧
    Ev.drvSleep ∉ (display_text env text mw mh rotate fs0).2.1 ∧
    Ev.wait 2 ∉ (display_text env text mw mh rotate fs0).2.1 := by
  unfold display_image display_image_run display_text display_text_run
    init_and_clear_display
  rcases hl : layout env text mw mh rotate with e | img
  · cases hi : env.initOk with
    | false => simp [hpi]
    | true =>
      rcases hfail with hf | hf
      · rw [hi] at hf
        simp at hf
      · simp [hpi, hf]
  · cases hi : env.initOk with
    | false => simp [hpi]
    | true =>
      rcases hfail with hf | hf
      · rw [hi] at hf
        simp at hf
      · simp [hpi, hf]

/-- Witness for C6's amended theorem at the clear-failure environment. -/
theorem C6_amended_abort_witness :
    (display_image envRealClearFail "a.bmp").1 = false ∧
    Ev.drvPush ∉ (display_image envRealClearFail "a.bmp").2 ∧
    Ev.drvSleep ∉ (display_image envRealClearFail "a.bmp").2 ∧
    Ev.wait 2 ∉ (display_image envRealClearFail "a.bmp").2 ∧
    (display_text envRealClearFail "Hi" 122 250 true fsEmpty).1 = false ∧
    Ev.drvPush ∉ (display_text envRealClearFail "Hi" 122 250 true fsEmpty).2.1 ∧
    Ev.drvSleep ∉ (display_text envRealClearFail "Hi" 122 250 true fsEmpty).2.1 ∧
    Ev.wait 2 ∉ (display_text envRealClearFail "Hi" 122 250 true fsEmpty).2.1 :=
  C6_amended_abort envRealClearFail "a.bmp" "Hi" 122 250 true fsEmpty rfl (Or.inr rfl)

/-- C7: on the Simulated backend, every `display_text` call whose layout
and save succeed writes the rendered canvas to the one fixed path
`<module dir>/../bmps/text_preview.bmp` — its only emitted event is that
save, and the file-system afterwards maps that path to the new canvas
whatever it held before — and the call returns `True`. -/
theorem C7_sim_save (env : Env) (text : String) (mw mh : Int) (rotate : Bool)
    (fs0 : FSMap) (img : Canvas) (hpi : env.piAvailable = false)
    (hsv : env.saveOk = true) (hlay : layout env text mw mh rotate = .ok img) :
    (display_text env text mw mh rotate fs0).1 = true ∧
    (display_text env text mw mh rotate fs0).2.1 = [Ev.save (debugPath env)] ∧
    (display_text env text mw mh rotate fs0).2.2 (debugPath env) = some img := by
  unfold display_text display_text_run
  rw [hlay]
  simp [hpi, hsv]

/-- The canvas `layout` produces for `"Hi"` with the default 122 × 250
rotated panel: measured `(80, 40)` at the seed size 40, drawn at `(85, 41)`
on the 250 × 122 working canvas, then rotated. -/
def hiCanvas : Canvas :=
  rotate270expand (drawText envSim (blankCanvas 250 122) "Hi" 40 85 41)

/-- Witness for C7 at the spec's scenario: simulated backend,
`displayText("Hi")`, starting from an empty file system. -/
theorem C7_sim_save_witness :
    (display_text envSim "Hi" 122 250 true fsEmpty).1 = true ∧
    (display_text envSim "Hi" 122 250 true fsEmpty).2.1 = [Ev.save (debugPath envSim)] ∧
    (display_text envSim "Hi" 122 250 true fsEmpty).2.2 (debugPath envSim) = some hiCanvas :=
  C7_sim_save envSim "Hi" 122 250 true fsEmpty hiCanvas rfl rfl rfl

/-- C8: `display_text` on the empty string never errors — it returns `True`
whenever the environment's own operations succeed — and the canvas its
layout produces is entirely white, no black pixel drawn, whatever font size
the search selects (PIL draws nothing for empty text, which is the
`hg` hypothesis on the rasteriser). -/
theorem C8_empty_text (env : Env) (mw mh : Int) (rotate : Bool) (fs0 : FSMap)
    (img : Canvas)
    (hg : ∀ fs dx dy, env.glyphs "" fs dx dy = false)
    (hlay : layout env "" mw mh rotate = .ok img)
    (hi : env.initOk = true) (hc : env.clearOk = true) (hp : env.pushOk = true)
    (hs : env.sleepOk = true) (hsv : env.saveOk = true) :
    (display_text env "" mw mh rotate fs0).1 = true ∧ ∀ i j, img.px i j = false := by
  constructor
  · unfold display_text display_text_run init_and_clear_display
    rw [hlay]
    cases hpi : env.piAvailable with
    | false => simp [hsv]
    | true => simp [hi, hc, hp, hs]
  · cases rotate with
    | false =>
      unfold layout at hlay
      exact layoutWorking_blank env "" mw mh img hg hlay
    | true =>
      unfold layout at hlay
      rcases hw : layoutWorking env "" mh mw with e | inner
      · rw [hw] at hlay
        simp at hlay
      · rw [hw] at hlay
        simp at hlay
        subst hlay
        intro i j
        have hb := layoutWorking_blank env "" mh mw inner hg hw
        simp [rotate270expand, hb]

/-- The canvas `layout` produces for the empty string on the default
rotated panel: measured `(0, 40)` at the seed size 40, drawn at
`(125, 41)`, then rotated. -/
def emptyTextCanvas : Canvas :=
  rotate270expand (drawText envSim (blankCanvas 250 122) "" 40 125 41)

/-- Witness for C8 at the concrete simulated environment. -/
theorem C8_empty_text_witness :
    (display_text envSim "" 122 250 true fsEmpty).1 = true ∧
    ∀ i j, emptyTextCanvas.px i j = false :=
  C8_empty_text envSim 122 250 true fsEmpty emptyTextCanvas
    (fun _ _ _ => rfl) rfl rfl rfl rfl rfl rfl

/-- C9: `is_raspberry_pi` returns a plain boolean for every probe outcome,
and on any caught read error of the platform identity source (missing
file, I/O or OS error) it falls back to the processor-architecture plus
device-node check instead of escalating the fault. -/
theorem C9_probe_fallback (env : ProbeEnv) (e : ReadErr)
    (h : env.readModel = .error e) :
    is_raspberry_pi env = (env.machine.startsWith "arm" && env.gpiomem) := by
  unfold is_raspberry_pi
  rw [h]

/-- A probe environment whose identity-source read raises
`FileNotFoundError` on an arm machine with `/dev/gpiomem` present. -/
def probeErrEnv : ProbeEnv :=
  ⟨.error .fileNotFound, "armv7l", true⟩

/-- Witness for C9 at a concrete probe environment. -/
theorem C9_probe_fallback_witness :
    is_raspberry_pi probeErrEnv =
      (probeErrEnv.machine.startsWith "arm" && probeErrEnv.gpiomem) :=
  C9_probe_fallback probeErrEnv .fileNotFound rfl

/-- C10: on the Simulated backend, `display_image` still opens and decodes
the bitmap at the given path — it returns `True` exactly when the decode
succeeds and `False` when it raises, as on the Real backend — and it emits
no event at all: no driver call and no file write. -/
theorem C10_sim_image_decode (env : Env) (path : String)
    (hpi : env.piAvailable = false) :
    (display_image env path).2 = [] ∧
    ((display_image env path).1 = true ↔ ∃ c, env.openImage path = .ok c) := by
  unfold display_image display_image_run
  rcases ho : env.openImage path with e | c
  · simp [hpi, ho]
  · simp [hpi, ho]

/-- Witness for C10 at the concrete simulated environment, where
`"ok.bmp"` decodes and is displayed with no events emitted. -/
theorem C10_sim_image_decode_witness :
    (display_image envSim "ok.bmp").2 = [] ∧
    (display_image envSim "ok.bmp").1 = true ∧
    (display_image envSim "missing.bmp").1 = false :=
  ⟨(C10_sim_image_decode envSim "ok.bmp" rfl).1,
   (C10_sim_image_decode envSim "ok.bmp" rfl).2.mpr ⟨blankCanvas 10 10, rfl⟩,
   by decide⟩
